import Mathlib

/-!
Shallow embedding of `code/client/conn/conn.go` from the natpass client:
the connection multiplexer (`Conn`), its read/demultiplex loop (`loopRead`),
write/serialize loop (`loopWrite`), drop-map sweep (`checkDrop`), link
registry (`AddLink` / `Reset` / `ChanRead` / `ChanUnknown`) and connection
construction (`New` / `connect` / `writeHandshake`).

Modelling conventions:
- Go maps (`conn.read`, `conn.drop`) are association lists; a Go map has
  no duplicate keys, so lemmas that need it take a `Nodup` hypothesis on
  the key list.
- Go buffered channels are FIFO queues (`Chan` with a capacity and a
  buffer list); a completed send appends at the tail.
- `time.Duration` / `time.Time` are `Nat` nanoseconds.
- Nondeterministic events (what `ReadMessage` returned, which arm of a
  `select` fired, whether `WriteMessage` failed) are oracle arguments to
  the step functions; each step function is the pure transcription of one
  iteration of the corresponding Go loop body.
-/

namespace Natpass

/-- Message types of `network.Msg` (only `handshake` and `keepalive` are
inspected by conn.go; the rest are carried opaquely). -/
inductive MsgType where
  | handshake
  | keepalive
  | connectReq
  | connectRep
  | disconnect
  | forward
  deriving DecidableEq, Repr

/-- Payload of `network.Msg` as seen by conn.go: the handshake payload
(`network.Msg_Hsp` with `HandshakePayload.Enc`) or an opaque payload. -/
inductive Payload where
  | empty
  | hsp (enc : List Nat)
  | other
  deriving DecidableEq, Repr

/-- The fields of `network.Msg` that conn.go reads or writes:
`XType`, `From`, `To`, `LinkId`, `Payload`. -/
structure Msg where
  xtype : MsgType
  from_ : String
  to_ : String
  linkId : String
  payload : Payload
  deriving DecidableEq, Repr

/-- A Go buffered channel of `*network.Msg`: capacity plus FIFO buffer. -/
structure Chan where
  cap : Nat
  buf : List Msg
  deriving DecidableEq, Repr

/-- A completed channel send `ch <- msg`: the message joins the tail of
the FIFO. -/
def chanSend (c : Chan) (m : Msg) : Chan :=
  { c with buf := c.buf ++ [m] }

/-- The fields of `global.Configure` that conn.go reads: server address,
SSL flag, client id, encryption key, read/write timeouts (nanoseconds). -/
structure Configure where
  server : String
  useSSL : Bool
  id : String
  enc : List Nat
  readTimeout : Nat
  writeTimeout : Nat
  deriving DecidableEq, Repr

/-- Nanoseconds in Go's `time.Second`. -/
def nsPerSecond : Nat := 1000000000

/-- Go's `time.Minute` in nanoseconds. -/
def timeMinute : Nat := 60 * nsPerSecond

/-- The mutable state of `Conn`: the link registry `read`
(link id => channel), the fallback `unknownRead` channel, the outbound
`write` queue, and the `drop` map (link id => expiry time). -/
structure ConnState where
  read : List (String × Chan)
  unknownRead : Chan
  write : List Msg
  drop : List (String × Nat)
  deriving DecidableEq, Repr

/-- The `Conn` literal built in `New`: empty registry, unknown channel of
capacity 1024, write queue of capacity 1024 (buffer starts empty), empty
drop map. -/
def newConnState : ConnState :=
  { read := []
    unknownRead := { cap := 1024, buf := [] }
    write := []
    drop := [] }

/-- Write `f c` over the channel registered at `id` (Go map update of an
existing key). -/
def updateChan (read : List (String × Chan)) (id : String) (f : Chan → Chan) :
    List (String × Chan) :=
  read.map fun p => if p.1 == id then (p.1, f p.2) else p

/-- Go map assignment `m[k] = v` on the drop map: overwrite if present,
otherwise add. -/
def dropSet (drop : List (String × Nat)) (id : String) (t : Nat) :
    List (String × Nat) :=
  if (drop.lookup id).isSome then
    drop.map fun p => if p.1 == id then (p.1, t) else p
  else
    (id, t) :: drop

/-- Transcription of `strings.Contains` on character lists. -/
def listContainsSub (pat : List Char) : List Char → Bool
  | [] => pat.isEmpty
  | c :: t => pat.isPrefixOf (c :: t) || listContainsSub pat t

/-- Transcription of `strings.Contains(s, pat)`. -/
def strContains (s pat : String) : Bool :=
  listContainsSub pat.data s.data

/-- The check `strings.Contains(err.Error(), "i/o timeout")` in `loopRead`. -/
def isTimeoutError (e : String) : Bool :=
  strContains e "i/o timeout"

/-- What `conn.conn.ReadMessage(conn.cfg.ReadTimeout)` returned this
iteration: an error (its `Error()` string) or a message. -/
inductive ReadEvent where
  | readErr (e : String)
  | readOk (msg : Msg)
  deriving DecidableEq, Repr

/-- Which arm of the delivery `select` in `loopRead` fired:
`ch <- msg`, `<-time.After(conn.cfg.ReadTimeout)`, or `<-conn.ctx.Done()`. -/
inductive SelectOutcome where
  | send
  | timedOut
  | ctxDone
  deriving DecidableEq, Repr

/-- Observable outcome of one `loopRead` iteration.  `backpressureDrop`
records the bound of the `time.After` arm that fired. -/
inductive ReadEffect where
  | exitTooManyTimeouts
  | continueReadErr
  | discardKeepalive
  | discardDropped
  | enqueuedLink (id : String)
  | enqueuedUnknown
  | backpressureDrop (id : String) (waited : Nat)
  | exitCancelled
  deriving DecidableEq, Repr

/-- One iteration of the `loopRead` body, transcribed from conn.go:
`timeout` is the consecutive-timeout counter (`var timeout int`), `ev`
says what `ReadMessage` returned, `sel` which select arm fired, `now` is
`time.Now()` in nanoseconds.  Returns the new state, the new counter and
the observable effect. -/
def loopReadStep (cfg : Configure) (st : ConnState) (timeout : Nat)
    (ev : ReadEvent) (sel : SelectOutcome) (now : Nat) :
    ConnState × Nat × ReadEffect :=
  match ev with
  | .readErr e =>
    if isTimeoutError e then
      if timeout + 1 ≥ 60 then (st, timeout + 1, .exitTooManyTimeouts)
      else (st, timeout + 1, .continueReadErr)
    else
      (st, timeout, .continueReadErr)
  | .readOk msg =>
    if msg.xtype = .keepalive then
      (st, 0, .discardKeepalive)
    else
      let linkID := msg.linkId
      if (st.drop.lookup linkID).isSome then
        (st, 0, .discardDropped)
      else
        match st.read.lookup linkID with
        | some _ =>
          match sel with
          | .send =>
            ({ st with read := updateChan st.read linkID (chanSend · msg) },
              0, .enqueuedLink linkID)
          | .timedOut =>
            ({ st with drop := dropSet st.drop msg.linkId (now + timeMinute) },
              0, .backpressureDrop msg.linkId cfg.readTimeout)
          | .ctxDone => (st, 0, .exitCancelled)
        | none =>
          match sel with
          | .send =>
            ({ st with unknownRead := chanSend st.unknownRead msg },
              0, .enqueuedUnknown)
          | .timedOut =>
            ({ st with drop := dropSet st.drop msg.linkId (now + timeMinute) },
              0, .backpressureDrop msg.linkId cfg.readTimeout)
          | .ctxDone => (st, 0, .exitCancelled)

/-- Whether a `ReadEffect` corresponds to a `return` in `loopRead`. -/
def isExitEffect : ReadEffect → Bool
  | .exitTooManyTimeouts => true
  | .exitCancelled => true
  | _ => false

/-- Run `loopRead` over a list of oracle inputs, stopping at the first
iteration whose effect is a `return`; yields the final state, the final
counter, and the exit effect if the loop returned. -/
def loopReadRun (cfg : Configure) :
    ConnState → Nat → List (ReadEvent × SelectOutcome × Nat) →
    ConnState × Nat × Option ReadEffect
  | st, t, [] => (st, t, none)
  | st, t, (ev, sel, now) :: rest =>
    match loopReadStep cfg st t ev sel now with
    | (st', t', eff) =>
      if isExitEffect eff then (st', t', some eff)
      else loopReadRun cfg st' t' rest

/-- One sweep of `checkDrop` (the body after `time.Sleep(time.Second)`):
collect the keys whose expiry `t` satisfies `time.Now().After(t)`, then
delete those keys. -/
def checkDropSweep (drop : List (String × Nat)) (now : Nat) :
    List (String × Nat) :=
  let drops := (drop.filter fun p => now > p.2).map Prod.fst
  drop.filter fun p => !(drops.contains p.1)

/-- The poll interval of `checkDrop`: `time.Sleep(time.Second)`. -/
def checkDropInterval : Nat := nsPerSecond

/-- Registration `AddLink`: create a channel of capacity 10 for `id` unless one is
already registered. -/
def AddLink (st : ConnState) (id : String) : ConnState :=
  if (st.read.lookup id).isSome then st
  else { st with read := (id, { cap := 10, buf := [] }) :: st.read }

/-- Result of `Reset`: either the send completed, or the lookup missed
and the send was on a nil channel, which blocks forever. -/
inductive ResetResult where
  | delivered (st : ConnState)
  | blockedForever
  deriving DecidableEq, Repr

/-- Injection `Reset(id, msg)`: look up the channel under the registry lock and
send `msg` on it.  A missing key yields a nil channel; a send on a nil
channel blocks forever. -/
def Reset (st : ConnState) (id : String) (msg : Msg) : ResetResult :=
  match st.read.lookup id with
  | some _ =>
    .delivered { st with read := updateChan st.read id (chanSend · msg) }
  | none => .blockedForever

/-- Lookup `ChanRead(id)`: the registered channel, or none (nil) if unregistered. -/
def ChanRead (st : ConnState) (id : String) : Option Chan :=
  st.read.lookup id

/-- Accessor `ChanUnknown()`: the shared unknown channel. -/
def ChanUnknown (st : ConnState) : Chan :=
  st.unknownRead

/-- What the `select` in `loopWrite` produced: a message from
`conn.write`, or `<-conn.ctx.Done()`. -/
inductive WriteEvent where
  | recv
  | ctxDone
  deriving DecidableEq, Repr

/-- Whether `conn.conn.WriteMessage(msg, conn.cfg.WriteTimeout)` failed. -/
inductive WriteOutcome where
  | ok
  | err (e : String)
  deriving DecidableEq, Repr

/-- Observable outcome of one `loopWrite` iteration: the message written
(or dropped) together with the timeout passed to `WriteMessage`. -/
inductive WriteEffect where
  | written (m : Msg) (timeout : Nat)
  | writeErrDropped (m : Msg) (timeout : Nat) (e : String)
  | blockedEmpty
  | exitCancelled
  deriving DecidableEq, Repr

/-- One iteration of the `loopWrite` body: receive a message from the
outbound queue (or observe cancellation), stamp `msg.From = conn.cfg.ID`,
write it with `conn.cfg.WriteTimeout`; on error log and continue.
Returns the remaining outbound queue and the effect. -/
def loopWriteStep (cfg : Configure) (queue : List Msg) (ev : WriteEvent)
    (out : WriteOutcome) : List Msg × WriteEffect :=
  match ev, queue with
  | .ctxDone, q => (q, .exitCancelled)
  | .recv, [] => ([], .blockedEmpty)
  | .recv, m :: rest =>
    let stamped := { m with from_ := cfg.id }
    match out with
    | .ok => (rest, .written stamped cfg.writeTimeout)
    | .err e => (rest, .writeErrDropped stamped cfg.writeTimeout e)

/-- The handshake message built by `writeHandshake`: type `handshake`,
`From = cfg.ID`, `To = "server"`, payload `HandshakePayload{Enc: cfg.Enc}`. -/
def writeHandshakeMsg (cfg : Configure) : Msg :=
  { xtype := .handshake
    from_ := cfg.id
    to_ := "server"
    linkId := ""
    payload := .hsp cfg.enc }

/-- The timeout of the handshake write: `5 * time.Second`. -/
def handshakeTimeout : Nat := 5 * nsPerSecond

/-- Result of `connect()`. -/
inductive ConnectResult where
  | failed
  | connected
  deriving DecidableEq, Repr

/-- Connection setup `connect()`: dial (plain or TLS), then `writeHandshake`.  The oracle
`dialOk` says whether the dial succeeded and `hsOk` whether the handshake
`WriteMessage` succeeded.  Returns the result together with the list of
frames written (with their timeouts) during the attempt. -/
def connectAttempt (cfg : Configure) (dialOk hsOk : Bool) :
    ConnectResult × List (Msg × Nat) :=
  if !dialOk then (.failed, [])
  else if !hsOk then (.failed, [(writeHandshakeMsg cfg, handshakeTimeout)])
  else (.connected, [(writeHandshakeMsg cfg, handshakeTimeout)])

/-- The four loops `New` spawns after a successful `connect`. -/
inductive LoopName where
  | loopRead
  | loopWrite
  | keepalive
  | checkDrop
  deriving DecidableEq, Repr

/-- Constructor `New(cfg)`: build the `Conn` literal, `runtime.Assert(conn.connect())`
(which aborts construction on error, before any goroutine is spawned),
then start the four loops. -/
def New (cfg : Configure) (dialOk hsOk : Bool) :
    Option (ConnState × List LoopName) :=
  match connectAttempt cfg dialOk hsOk with
  | (.failed, _) => none
  | (.connected, _) =>
    some (newConnState, [.loopRead, .loopWrite, .keepalive, .checkDrop])

/-! Concrete example data used by witnesses. -/

/-- A concrete configuration. -/
def cfg0 : Configure :=
  { server := "example.com:1234"
    useSSL := false
    id := "cli"
    enc := [1, 2, 3]
    readTimeout := nsPerSecond
    writeTimeout := 2 * nsPerSecond }

/-- A concrete empty link channel of capacity 10. -/
def chA : Chan := { cap := 10, buf := [] }

/-- A concrete non-keepalive data message for link "a". -/
def msgA : Msg :=
  { xtype := .forward
    from_ := "peer"
    to_ := "cli"
    linkId := "a"
    payload := .other }

/-- A concrete non-keepalive data message for the unregistered link "b". -/
def msgB : Msg :=
  { xtype := .forward
    from_ := "peer"
    to_ := "cli"
    linkId := "b"
    payload := .other }

/-- A concrete state with link "a" registered and nothing dropped. -/
def stA : ConnState :=
  { read := [("a", chA)]
    unknownRead := { cap := 1024, buf := [] }
    write := []
    drop := [] }

/-- A concrete state with link "a" registered and currently suppressed. -/
def stDrop : ConnState :=
  { read := [("a", chA)]
    unknownRead := { cap := 1024, buf := [] }
    write := []
    drop := [("a", 5)] }

/-- A concrete keepalive message. -/
def msgK : Msg :=
  { xtype := .keepalive
    from_ := "peer"
    to_ := "cli"
    linkId := ""
    payload := .empty }

/-- A concrete locally-constructed reset message for link "a". -/
def msgR : Msg :=
  { xtype := .disconnect
    from_ := "cli"
    to_ := "peer"
    linkId := "a"
    payload := .empty }

/-- A concrete state whose drop map is the result of a concrete sweep. -/
def stSwept : ConnState :=
  { read := [("a", chA)]
    unknownRead := { cap := 1024, buf := [] }
    write := []
    drop := [("b", 1000)] }

/-- A concrete state where link "a" has one message already buffered. -/
def stBuf : ConnState :=
  { read := [("a", { cap := 10, buf := [msgA] })]
    unknownRead := { cap := 1024, buf := [] }
    write := []
    drop := [] }

/-! Helper lemmas about the association-list operations. -/

/-- Unfolding `List.lookup` over a cons cell. -/
theorem lookup_cons {β : Type} (a k : String) (v : β) (l : List (String × β)) :
    List.lookup a ((k, v) :: l) = if a == k then some v else List.lookup a l := by
  cases h : a == k <;> simp [List.lookup, h]

/-- Looking up the updated key after `updateChan` applies the update to
the previously registered channel. -/
theorem lookup_updateChan (read : List (String × Chan)) (id : String)
    (f : Chan → Chan) :
    (updateChan read id f).lookup id = (read.lookup id).map f := by
  induction read with
  | nil => rfl
  | cons p rest ih =>
    obtain ⟨k, c⟩ := p
    simp only [updateChan, List.map_cons] at *
    cases h : (k == id) with
    | true =>
      obtain rfl : k = id := by simpa using h
      simp [lookup_cons, ih]
    | false =>
      have h' : (id == k) = false := by
        simp only [beq_eq_false_iff_ne] at h ⊢
        exact Ne.symm h
      simp only [h, lookup_cons, h', if_false, Bool.false_eq_true]
      simpa using ih

/-- Updating with `updateChan` leaves every other key unchanged. -/
theorem lookup_updateChan_ne (read : List (String × Chan)) (id id' : String)
    (f : Chan → Chan) (h : id' ≠ id) :
    (updateChan read id f).lookup id' = read.lookup id' := by
  induction read with
  | nil => rfl
  | cons p rest ih =>
    obtain ⟨k, c⟩ := p
    simp only [updateChan, List.map_cons] at *
    cases hk : (k == id) with
    | true =>
      obtain rfl : k = id := by simpa using hk
      have h' : (id' == k) = false := by simpa using h
      simp only [hk, lookup_cons, h', if_true, if_false, Bool.false_eq_true]
      simpa using ih
    | false =>
      simp only [hk, if_false, Bool.false_eq_true]
      cases hbeq : (id' == k) <;>
        simp only [lookup_cons, hbeq, if_true, if_false, Bool.false_eq_true]
      simpa using ih

/-- Writing with `dropSet` makes the written key look up to the written value. -/
theorem lookup_dropSet (drop : List (String × Nat)) (id : String) (t : Nat) :
    (dropSet drop id t).lookup id = some t := by
  unfold dropSet
  by_cases hs : (drop.lookup id).isSome
  · rw [if_pos hs]
    induction drop with
    | nil => simp [List.lookup] at hs
    | cons p rest ih =>
      obtain ⟨k, c⟩ := p
      simp only [List.map_cons]
      cases h : (k == id) with
      | true =>
        obtain rfl : k = id := by simpa using h
        simp [lookup_cons]
      | false =>
        have h' : (id == k) = false := by
          simp only [beq_eq_false_iff_ne] at h ⊢
          exact Ne.symm h
        simp only [h, if_false, Bool.false_eq_true, lookup_cons, h']
        rw [lookup_cons, h'] at hs
        simp only [if_false, Bool.false_eq_true] at hs
        exact ih hs
  · rw [if_neg hs]
    simp [lookup_cons]

/-- A key absent from the key list looks up to `none`. -/
theorem lookup_eq_none_of_not_mem_keys {β : Type} (l : List (String × β))
    (id : String) (h : id ∉ l.map Prod.fst) : l.lookup id = none := by
  induction l with
  | nil => rfl
  | cons p rest ih =>
    obtain ⟨k, v⟩ := p
    simp only [List.map_cons, List.mem_cons, not_or] at h
    have hb : (id == k) = false := by simpa using h.1
    rw [lookup_cons, hb]
    simpa using ih h.2

/-- Lookup through `filter` on an association list with distinct keys:
the looked-up entry survives exactly when the predicate keeps it. -/
theorem lookup_filter_nodup {β : Type} (l : List (String × β))
    (f : String × β → Bool) (hnd : (l.map Prod.fst).Nodup) (id : String) :
    (l.filter f).lookup id =
      match l.lookup id with
      | some v => if f (id, v) then some v else none
      | none => none := by
  induction l with
  | nil => rfl
  | cons p rest ih =>
    obtain ⟨k, v⟩ := p
    simp only [List.map_cons, List.nodup_cons] at hnd
    obtain ⟨hk, hrest⟩ := hnd
    cases hidk : (id == k) with
    | true =>
      obtain rfl : id = k := by simpa using hidk
      rw [lookup_cons, hidk] at *
      cases hf : f (id, v) with
      | true =>
        simp only [List.filter_cons, hf, if_true]
        simp [lookup_cons]
      | false =>
        simp only [List.filter_cons, hf, if_false, Bool.false_eq_true]
        have : id ∉ (rest.filter f).map Prod.fst := by
          intro hmem
          obtain ⟨q, hq, hq1⟩ := List.mem_map.mp hmem
          exact hk (hq1 ▸ List.mem_map_of_mem Prod.fst (List.mem_of_mem_filter hq))
        simp [lookup_eq_none_of_not_mem_keys _ _ this, hf]
    | false =>
      cases hf : f (k, v) with
      | true =>
        simp only [List.filter_cons, hf, if_true]
        rw [lookup_cons, hidk, lookup_cons, hidk]
        simp only [if_false, Bool.false_eq_true]
        exact ih hrest
      | false =>
        simp only [List.filter_cons, hf, if_false, Bool.false_eq_true]
        rw [lookup_cons, hidk]
        simp only [if_false, Bool.false_eq_true]
        exact ih hrest

/-- With distinct keys, the two-phase collect-then-delete sweep of
`checkDrop` equals the pointwise filter that keeps exactly the entries
whose expiry has not passed. -/
theorem checkDropSweep_eq_filter (drop : List (String × Nat)) (now : Nat)
    (hnd : (drop.map Prod.fst).Nodup) :
    checkDropSweep drop now = drop.filter fun p => !(decide (now > p.2)) := by
  unfold checkDropSweep
  apply List.filter_congr
  intro p hp
  suffices h :
      ((drop.filter fun q => decide (now > q.2)).map Prod.fst).contains p.1
        = decide (now > p.2) by
    rw [h]
  by_cases hgt : now > p.2
  · have hpf : p ∈ drop.filter fun q => decide (now > q.2) :=
      List.mem_filter.mpr ⟨hp, by simpa using hgt⟩
    have : p.1 ∈ (drop.filter fun q => decide (now > q.2)).map Prod.fst :=
      List.mem_map_of_mem Prod.fst hpf
    simpa [hgt] using this
  · have : p.1 ∉ (drop.filter fun q => decide (now > q.2)).map Prod.fst := by
      intro hmem
      obtain ⟨q, hq, hq1⟩ := List.mem_map.mp hmem
      have hq' := List.mem_filter.mp hq
      have : q = p :=
        List.inj_on_of_nodup_map hnd (List.mem_of_mem_filter hq) hp hq1
      exact hgt (by simpa [this] using hq'.2)
    simpa [hgt] using this

/-- With distinct keys, lookup after the `checkDrop` sweep: an entry is
removed exactly when `now` is after its expiry. -/
theorem lookup_checkDropSweep (drop : List (String × Nat)) (now : Nat)
    (id : String) (hnd : (drop.map Prod.fst).Nodup) :
    (checkDropSweep drop now).lookup id =
      match drop.lookup id with
      | some t => if now > t then none else some t
      | none => none := by
  rw [checkDropSweep_eq_filter drop now hnd,
    lookup_filter_nodup drop _ hnd id]
  cases h : drop.lookup id with
  | none => rfl
  | some t => by_cases hgt : now > t <;> simp [hgt]

/-! Claim theorems. -/

/-- C1: every frame read by `loopRead` that is not keepalive-typed and
whose link ID is not in the drop map is enqueued (when the send arm of the
select fires, i.e. absent backpressure/cancellation) to the channel
registered for that link ID if one exists, and otherwise to the shared
unknown channel — the frame is never silently lost. -/
theorem loopRead_routes_registered_or_unknown
    (cfg : Configure) (st : ConnState) (t : Nat) (msg : Msg) (now : Nat)
    (hk : msg.xtype ≠ .keepalive)
    (hd : st.drop.lookup msg.linkId = none) :
    (∀ c, st.read.lookup msg.linkId = some c →
      ∃ st', loopReadStep cfg st t (.readOk msg) .send now
          = (st', 0, .enqueuedLink msg.linkId) ∧
        st'.read.lookup msg.linkId = some (chanSend c msg) ∧
        st'.unknownRead = st.unknownRead) ∧
    (st.read.lookup msg.linkId = none →
      ∃ st', loopReadStep cfg st t (.readOk msg) .send now
          = (st', 0, .enqueuedUnknown) ∧
        st'.unknownRead = chanSend st.unknownRead msg ∧
        st'.read = st.read) := by
  constructor
  · intro c hc
    refine ⟨{ st with read := updateChan st.read msg.linkId (chanSend · msg) },
      ?_, ?_, rfl⟩
    · simp [loopReadStep, hk, hd, hc]
    · show (updateChan st.read msg.linkId (chanSend · msg)).lookup msg.linkId = _
      rw [lookup_updateChan, hc]
      rfl
  · intro hc
    refine ⟨{ st with unknownRead := chanSend st.unknownRead msg }, ?_, rfl, rfl⟩
    simp [loopReadStep, hk, hd, hc]

/-- Witness for C1 at a concrete registered link and at a concrete
unregistered link. -/
theorem loopRead_routes_registered_or_unknown_witness :
    (∃ st', loopReadStep cfg0 stA 0 (.readOk msgA) .send 0
        = (st', 0, .enqueuedLink msgA.linkId) ∧
      st'.read.lookup msgA.linkId = some (chanSend chA msgA) ∧
      st'.unknownRead = stA.unknownRead) ∧
    (∃ st', loopReadStep cfg0 stA 0 (.readOk msgB) .send 0
        = (st', 0, .enqueuedUnknown) ∧
      st'.unknownRead = chanSend stA.unknownRead msgB ∧
      st'.read = stA.read) :=
  ⟨(loopRead_routes_registered_or_unknown cfg0 stA 0 msgA 0
      (by decide) rfl).1 chA rfl,
    (loopRead_routes_registered_or_unknown cfg0 stA 0 msgB 0
      (by decide) rfl).2 rfl⟩

/-- C2: a frame whose link ID is in the drop map is discarded with no
delivery attempt (the state, hence every channel, is unchanged); and when
the delivery select times out (the `time.After(cfg.ReadTimeout)` arm
fires), the link ID is recorded in the drop map with expiry
`now + time.Minute` and the frame is dropped (no channel is changed). -/
theorem loopRead_suppression_and_backpressure
    (cfg : Configure) (st : ConnState) (t : Nat) (msg : Msg) (now : Nat)
    (hk : msg.xtype ≠ .keepalive) :
    (∀ e sel, st.drop.lookup msg.linkId = some e →
      loopReadStep cfg st t (.readOk msg) sel now = (st, 0, .discardDropped)) ∧
    (st.drop.lookup msg.linkId = none →
      ∃ st', loopReadStep cfg st t (.readOk msg) .timedOut now
          = (st', 0, .backpressureDrop msg.linkId cfg.readTimeout) ∧
        st'.drop.lookup msg.linkId = some (now + timeMinute) ∧
        st'.read = st.read ∧ st'.unknownRead = st.unknownRead) := by
  constructor
  · intro e sel he
    simp [loopReadStep, hk, he]
  · intro hd
    refine ⟨{ st with drop := dropSet st.drop msg.linkId (now + timeMinute) },
      ?_, ?_, rfl, rfl⟩
    · cases hcl : st.read.lookup msg.linkId <;>
        simp [loopReadStep, hk, hd, hcl]
    · exact lookup_dropSet st.drop msg.linkId (now + timeMinute)

/-- Witness for C2: a suppressed concrete link, and a concrete
backpressure timeout recording the 1-minute window. -/
theorem loopRead_suppression_and_backpressure_witness :
    (loopReadStep cfg0 stDrop 0 (.readOk msgA) .send 7
      = (stDrop, 0, .discardDropped)) ∧
    (∃ st', loopReadStep cfg0 stA 0 (.readOk msgA) .timedOut 7
        = (st', 0, .backpressureDrop msgA.linkId cfg0.readTimeout) ∧
      st'.drop.lookup msgA.linkId = some (7 + timeMinute) ∧
      st'.read = stA.read ∧ st'.unknownRead = stA.unknownRead) :=
  ⟨(loopRead_suppression_and_backpressure cfg0 stDrop 0 msgA 7
      (by decide)).1 5 .send rfl,
    (loopRead_suppression_and_backpressure cfg0 stA 0 msgA 7
      (by decide)).2 rfl⟩

/-- C3: in `loopRead`, a read error containing "i/o timeout" increments
the consecutive-timeout counter and the loop continues while the counter
stays below 60 and returns (fatal) once it reaches 60; a successful read
resets the counter to zero; any other read error is non-fatal and the
loop continues. -/
theorem loopRead_timeout_counter
    (cfg : Configure) (st : ConnState) (t : Nat) (sel : SelectOutcome)
    (now : Nat) :
    (∀ e, isTimeoutError e = true → t + 1 < 60 →
      loopReadStep cfg st t (.readErr e) sel now
        = (st, t + 1, .continueReadErr)) ∧
    (∀ e, isTimeoutError e = true → t + 1 ≥ 60 →
      loopReadStep cfg st t (.readErr e) sel now
        = (st, t + 1, .exitTooManyTimeouts)) ∧
    (∀ msg, (loopReadStep cfg st t (.readOk msg) sel now).2.1 = 0) ∧
    (∀ e, isTimeoutError e = false →
      loopReadStep cfg st t (.readErr e) sel now
        = (st, t, .continueReadErr)) := by
  refine ⟨?_, ?_, ?_, ?_⟩
  · intro e he hlt
    simp [loopReadStep, he, show ¬ (60 ≤ t + 1) by omega]
  · intro e he hge
    simp [loopReadStep, he, show 60 ≤ t + 1 from hge]
  · intro msg
    by_cases hk : msg.xtype = .keepalive
    · simp [loopReadStep, hk]
    · by_cases hd : (st.drop.lookup msg.linkId).isSome <;>
        cases hcl : st.read.lookup msg.linkId <;>
        cases sel <;>
        simp [loopReadStep, hk, hd, hcl]
  · intro e he
    simp [loopReadStep, he]

/-- Witness for C3: concrete timeout errors below and at the threshold, a
concrete successful read, and a concrete non-timeout error. -/
theorem loopRead_timeout_counter_witness :
    (loopReadStep cfg0 stA 3 (.readErr "read tcp: i/o timeout") .send 0
      = (stA, 4, .continueReadErr)) ∧
    (loopReadStep cfg0 stA 59 (.readErr "read tcp: i/o timeout") .send 0
      = (stA, 60, .exitTooManyTimeouts)) ∧
    ((loopReadStep cfg0 stA 3 (.readOk msgA) .send 0).2.1 = 0) ∧
    (loopReadStep cfg0 stA 3 (.readErr "EOF") .send 0
      = (stA, 3, .continueReadErr)) :=
  ⟨(loopRead_timeout_counter cfg0 stA 3 .send 0).1 "read tcp: i/o timeout"
      (by decide) (by omega),
    (loopRead_timeout_counter cfg0 stA 59 .send 0).2.1 "read tcp: i/o timeout"
      (by decide) (by omega),
    (loopRead_timeout_counter cfg0 stA 3 .send 0).2.2.1 msgA,
    (loopRead_timeout_counter cfg0 stA 3 .send 0).2.2.2 "EOF" (by decide)⟩

/-- C4: a keepalive-typed frame is discarded by `loopRead` before any
routing, in every state: the step leaves the state unchanged (so neither
a per-link channel nor the unknown channel receives it). -/
theorem loopRead_keepalive_never_delivered
    (cfg : Configure) (st : ConnState) (t : Nat) (msg : Msg)
    (sel : SelectOutcome) (now : Nat)
    (hk : msg.xtype = .keepalive) :
    loopReadStep cfg st t (.readOk msg) sel now = (st, 0, .discardKeepalive) := by
  simp [loopReadStep, hk]

/-- Witness for C4: a concrete keepalive frame against a concrete state. -/
theorem loopRead_keepalive_never_delivered_witness :
    loopReadStep cfg0 stA 3 (.readOk msgK) .send 0
      = (stA, 0, .discardKeepalive) :=
  loopRead_keepalive_never_delivered cfg0 stA 3 msgK .send 0 rfl

/-- C5: the drop-sweep removes from the drop map exactly the entries
whose expiry has passed (`time.Now().After(t)`), and once a link's entry
has been removed by the sweep the next arriving frame for that link is
delivered normally (routed to its channel, or to the unknown channel). -/
theorem checkDrop_removes_exactly_expired
    (drop : List (String × Nat)) (now : Nat) (id : String)
    (hnd : (drop.map Prod.fst).Nodup) :
    ((checkDropSweep drop now).lookup id =
      match drop.lookup id with
      | some t => if now > t then none else some t
      | none => none) ∧
    (∀ cfg st t0 msg now2 e,
      drop.lookup id = some e → now > e →
      msg.linkId = id → msg.xtype ≠ .keepalive →
      st.drop = checkDropSweep drop now →
      ∃ st' eff, loopReadStep cfg st t0 (.readOk msg) .send now2
          = (st', 0, eff) ∧
        (eff = .enqueuedLink id ∨ eff = .enqueuedUnknown)) := by
  refine ⟨lookup_checkDropSweep drop now id hnd, ?_⟩
  intro cfg st t0 msg now2 e hde hgt hlid hk hstd
  subst hlid
  have h1 : st.drop.lookup msg.linkId = none := by
    rw [hstd, lookup_checkDropSweep drop now msg.linkId hnd, hde]
    simp [hgt]
  cases hcl : st.read.lookup msg.linkId with
  | some c =>
    exact ⟨{ st with read := updateChan st.read msg.linkId (chanSend · msg) },
      .enqueuedLink msg.linkId,
      by simp [loopReadStep, hk, h1, hcl], Or.inl rfl⟩
  | none =>
    exact ⟨{ st with unknownRead := chanSend st.unknownRead msg },
      .enqueuedUnknown,
      by simp [loopReadStep, hk, h1, hcl], Or.inr rfl⟩

/-- Witness for C5 on the concrete drop map [("a", 5), ("b", 1000)] swept
at time 10: the expired entry "a" is removed, the live entry "b" is kept,
and a frame for "a" is then delivered. -/
theorem checkDrop_removes_exactly_expired_witness :
    ((checkDropSweep [("a", 5), ("b", 1000)] 10).lookup "a" = none) ∧
    ((checkDropSweep [("a", 5), ("b", 1000)] 10).lookup "b" = some 1000) ∧
    (∃ st' eff, loopReadStep cfg0 stSwept 0 (.readOk msgA) .send 99
        = (st', 0, eff) ∧
      (eff = .enqueuedLink "a" ∨ eff = .enqueuedUnknown)) := by
  refine ⟨?_, ?_, ?_⟩
  · have h := (checkDrop_removes_exactly_expired [("a", 5), ("b", 1000)] 10 "a"
      (by decide)).1
    simpa using h
  · have h := (checkDrop_removes_exactly_expired [("a", 5), ("b", 1000)] 10 "b"
      (by decide)).1
    simpa using h
  · exact (checkDrop_removes_exactly_expired [("a", 5), ("b", 1000)] 10 "a"
      (by decide)).2 cfg0 stSwept 0 msgA 99 5 rfl (by omega) rfl (by decide)
      (by decide)

/-- C6 counterexample: with a message already buffered on link "a"'s
channel, `Reset` enqueues behind it, so the injected message is not the
next item read from the channel. -/
theorem Reset_not_next_item_counterexample :
    Reset stBuf "a" msgR
      = .delivered
          { read := [("a", { cap := 10, buf := [msgA, msgR] })]
            unknownRead := { cap := 1024, buf := [] }
            write := []
            drop := [] } ∧
    [msgA, msgR].head? = some msgA ∧
    msgA ≠ msgR := by
  refine ⟨?_, rfl, by decide⟩
  rfl

/-- C6 (amended): for a registered link ID, `Reset(id, msg)` appends
`msg` at the tail of that link's delivery queue — ahead of any frame that
arrives afterward, and the next item read whenever the queue was empty at
the call — and for an unregistered ID, `Reset` blocks forever. -/
theorem Reset_appends_ahead_of_later_frames
    (st : ConnState) (id : String) (msg : Msg) :
    (∀ c, st.read.lookup id = some c →
      ∃ st', Reset st id msg = .delivered st' ∧
        st'.read.lookup id = some { c with buf := c.buf ++ [msg] } ∧
        st'.drop = st.drop ∧
        (c.buf = [] → (c.buf ++ [msg]).head? = some msg) ∧
        (∀ msg2 cfg t now, msg2.linkId = id → msg2.xtype ≠ .keepalive →
          st.drop.lookup id = none →
          ∃ st'', loopReadStep cfg st' t (.readOk msg2) .send now
              = (st'', 0, .enqueuedLink id) ∧
            st''.read.lookup id
              = some { c with buf := c.buf ++ [msg] ++ [msg2] })) ∧
    (st.read.lookup id = none → Reset st id msg = .blockedForever) := by
  constructor
  · intro c hc
    refine ⟨{ st with read := updateChan st.read id (chanSend · msg) },
      ?_, ?_, rfl, ?_, ?_⟩
    · simp [Reset, hc]
    · show (updateChan st.read id (chanSend · msg)).lookup id = _
      rw [lookup_updateChan, hc]
      rfl
    · intro hbuf
      simp [hbuf]
    · intro msg2 cfg t now hlid hk hd
      subst hlid
      have hc' : (updateChan st.read msg2.linkId (chanSend · msg)).lookup
          msg2.linkId = some (chanSend c msg) := by
        rw [lookup_updateChan, hc]
        rfl
      refine ⟨⟨updateChan (updateChan st.read msg2.linkId (chanSend · msg)) msg2.linkId (chanSend · msg2), st.unknownRead, st.write, st.drop⟩, ?_, ?_⟩
      · simp [loopReadStep, hk, hd, hc']
      · show (updateChan (updateChan st.read msg2.linkId (chanSend · msg))
          msg2.linkId (chanSend · msg2)).lookup msg2.linkId = _
        rw [lookup_updateChan, hc']
        rfl
  · intro hc
    simp [Reset, hc]

/-- Witness for C6 (amended): a concrete registered link with an empty
queue, a later frame landing behind the injected message, and a concrete
unregistered link blocking. -/
theorem Reset_appends_ahead_of_later_frames_witness :
    (∃ st', Reset stA "a" msgR = .delivered st' ∧
      st'.read.lookup "a" = some { chA with buf := chA.buf ++ [msgR] } ∧
      st'.drop = stA.drop ∧
      (chA.buf = [] → (chA.buf ++ [msgR]).head? = some msgR) ∧
      (∀ msg2 cfg t now, msg2.linkId = "a" → msg2.xtype ≠ .keepalive →
        stA.drop.lookup "a" = none →
        ∃ st'', loopReadStep cfg st' t (.readOk msg2) .send now
            = (st'', 0, .enqueuedLink "a") ∧
          st''.read.lookup "a"
            = some { chA with buf := chA.buf ++ [msgR] ++ [msg2] })) ∧
    (Reset stA "b" msgR = .blockedForever) :=
  ⟨(Reset_appends_ahead_of_later_frames stA "a" msgR).1 chA rfl,
    (Reset_appends_ahead_of_later_frames stA "b" msgR).2 rfl⟩

/-- C7: `AddLink` is idempotent — when `id` is absent it registers a
channel of capacity 10 with an empty buffer; when `id` is present the
registry (including the existing channel and its buffered messages) is
left unchanged, so a second `AddLink` is a no-op. -/
theorem AddLink_idempotent
    (st : ConnState) (id : String) :
    AddLink (AddLink st id) id = AddLink st id ∧
    (st.read.lookup id = none →
      (AddLink st id).read.lookup id = some { cap := 10, buf := [] } ∧
      (AddLink st id).read = (id, { cap := 10, buf := [] }) :: st.read) ∧
    (∀ c, st.read.lookup id = some c → AddLink st id = st) := by
  by_cases h : (st.read.lookup id).isSome
  · obtain ⟨c, hc⟩ := Option.isSome_iff_exists.mp h
    have h1 : AddLink st id = st := by simp [AddLink, hc]
    exact ⟨by rw [h1, h1], fun hn => absurd hc (by simp [hn]),
      fun c' _ => h1⟩
  · have hn : st.read.lookup id = none :=
      Option.not_isSome_iff_eq_none.mp h
    have h1 : AddLink st id
        = { st with read := (id, { cap := 10, buf := [] }) :: st.read } := by
      simp [AddLink, hn]
    refine ⟨?_, fun _ => ⟨?_, by rw [h1]⟩, fun c hc => absurd hc (by simp [hn])⟩
    · rw [h1]
      simp [AddLink, lookup_cons]
    · rw [h1]
      simp [lookup_cons]

/-- Witness for C7: a fresh link "b" and the already-registered link "a"
on a concrete state. -/
theorem AddLink_idempotent_witness :
    (AddLink (AddLink stA "b") "b" = AddLink stA "b" ∧
      (AddLink stA "b").read.lookup "b" = some { cap := 10, buf := [] } ∧
      (AddLink stA "b").read = ("b", { cap := 10, buf := [] }) :: stA.read) ∧
    AddLink stA "a" = stA :=
  ⟨⟨(AddLink_idempotent stA "b").1, (AddLink_idempotent stA "b").2.1 rfl⟩,
    (AddLink_idempotent stA "a").2.2 chA rfl⟩

/-- C8: `loopWrite` dequeues a message, stamps `From` with the local
client ID, and writes it with the configured write timeout; on a write
error the message is dropped (the queue no longer holds it, nothing is
requeued) and the loop continues with the rest of the queue. -/
theorem loopWrite_stamps_and_drops_on_error
    (cfg : Configure) (m : Msg) (rest : List Msg) (out : WriteOutcome) :
    (loopWriteStep cfg (m :: rest) .recv out).1 = rest ∧
    (out = .ok →
      (loopWriteStep cfg (m :: rest) .recv out).2
        = .written { m with from_ := cfg.id } cfg.writeTimeout) ∧
    (∀ e, out = .err e →
      (loopWriteStep cfg (m :: rest) .recv out).2
        = .writeErrDropped { m with from_ := cfg.id } cfg.writeTimeout e) := by
  cases out with
  | ok => exact ⟨rfl, fun _ => rfl, fun e he => by cases he⟩
  | err e =>
    refine ⟨rfl, ?_, ?_⟩
    · intro h
      cases h
    · intro e' he
      injection he with h
      subst h
      rfl

/-- Witness for C8: a concrete message written successfully and the same
message dropped on a concrete write error. -/
theorem loopWrite_stamps_and_drops_on_error_witness :
    ((loopWriteStep cfg0 [msgA] .recv .ok).2
      = .written { msgA with from_ := cfg0.id } cfg0.writeTimeout) ∧
    ((loopWriteStep cfg0 [msgA] .recv (.err "broken pipe")).1 = [] ∧
      (loopWriteStep cfg0 [msgA] .recv (.err "broken pipe")).2
        = .writeErrDropped { msgA with from_ := cfg0.id } cfg0.writeTimeout
            "broken pipe") :=
  ⟨(loopWrite_stamps_and_drops_on_error cfg0 msgA [] .ok).2.1 rfl,
    (loopWrite_stamps_and_drops_on_error cfg0 msgA [] (.err "broken pipe")).1,
    (loopWrite_stamps_and_drops_on_error cfg0 msgA [] (.err "broken pipe")).2.2
      "broken pipe" rfl⟩

/-- C9: construction sends exactly one handshake-typed frame — sender the
configured client ID, recipient the fixed name "server", payload the
configured encryption key — with a 5-second write timeout; if the dial or
the handshake write fails, `New` aborts and none of the four loops is
started. -/
theorem New_handshake_once_or_abort
    (cfg : Configure) (dialOk hsOk : Bool) :
    ((writeHandshakeMsg cfg).xtype = .handshake ∧
      (writeHandshakeMsg cfg).from_ = cfg.id ∧
      (writeHandshakeMsg cfg).to_ = "server" ∧
      (writeHandshakeMsg cfg).payload = .hsp cfg.enc ∧
      handshakeTimeout = 5 * nsPerSecond) ∧
    (dialOk = true →
      (connectAttempt cfg dialOk hsOk).2
        = [(writeHandshakeMsg cfg, handshakeTimeout)]) ∧
    (dialOk = false → (connectAttempt cfg dialOk hsOk).2 = []) ∧
    (dialOk = true → hsOk = true →
      New cfg dialOk hsOk
        = some (newConnState, [.loopRead, .loopWrite, .keepalive, .checkDrop])) ∧
    ((dialOk = false ∨ hsOk = false) → New cfg dialOk hsOk = none) := by
  refine ⟨⟨rfl, rfl, rfl, rfl, rfl⟩, ?_, ?_, ?_, ?_⟩ <;>
    cases dialOk <;> cases hsOk <;>
    simp [New, connectAttempt]

/-- Witness for C9: concrete dial/handshake outcomes — both succeed, the
dial fails, the handshake write fails. -/
theorem New_handshake_once_or_abort_witness :
    ((connectAttempt cfg0 true true).2
      = [(writeHandshakeMsg cfg0, handshakeTimeout)]) ∧
    ((connectAttempt cfg0 false true).2 = []) ∧
    (New cfg0 true true
      = some (newConnState, [.loopRead, .loopWrite, .keepalive, .checkDrop])) ∧
    (New cfg0 false true = none) ∧
    (New cfg0 true false = none) :=
  ⟨(New_handshake_once_or_abort cfg0 true true).2.1 rfl,
    (New_handshake_once_or_abort cfg0 false true).2.2.1 rfl,
    (New_handshake_once_or_abort cfg0 true true).2.2.2.1 rfl rfl,
    (New_handshake_once_or_abort cfg0 false true).2.2.2.2 (Or.inl rfl),
    (New_handshake_once_or_abort cfg0 true false).2.2.2.2 (Or.inr rfl)⟩

/-- The event of a read failing with a transport timeout, at an arbitrary
instant. -/
def evTimeout : ReadEvent × SelectOutcome × Nat :=
  (.readErr "read tcp 127.0.0.1:2222: i/o timeout", .send, 0)

/-- The event of a read failing with a non-timeout error. -/
def evOtherErr : ReadEvent × SelectOutcome × Nat :=
  (.readErr "EOF", .send, 0)

/-- C10: a read error other than a timeout leaves the consecutive-timeout
counter unchanged (only a successful read resets it), so the fatal
threshold of 60 is reachable by timeouts interleaved with non-timeout
errors: concretely, 30 timeouts, then a non-timeout error, then 30 more
timeouts terminate the loop with the counter at 60. -/
theorem loopRead_counter_survives_other_errors
    (cfg : Configure) (st : ConnState) (t : Nat) (sel : SelectOutcome)
    (now : Nat) :
    (∀ e, isTimeoutError e = false →
      (loopReadStep cfg st t (.readErr e) sel now).2.1 = t) ∧
    (loopReadRun cfg0 newConnState 0
        (List.replicate 30 evTimeout ++ [evOtherErr]
          ++ List.replicate 30 evTimeout)
      = (newConnState, 60, some .exitTooManyTimeouts)) := by
  constructor
  · intro e he
    simp [loopReadStep, he]
  · decide

/-- Witness for C10: a concrete non-timeout error with a nonzero counter. -/
theorem loopRead_counter_survives_other_errors_witness :
    (loopReadStep cfg0 stA 17 (.readErr "connection reset by peer") .send 0).2.1
      = 17 :=
  (loopRead_counter_survives_other_errors cfg0 stA 17 .send 0).1
    "connection reset by peer" (by decide)

end Natpass
